import Mathlib

/-!
Shallow embedding of the realtime progress-tracking core of the repository:
`static/js/analysis.js` (progress display, live feed, polling loop, time
estimation, restart) and `static/js/websocket.js` (connection manager:
room subscriptions, reconnect-error handling, handler registry).

JavaScript numbers that the code only ever uses as exact quantities are
modelled as `Nat`/`Int`/`ℚ`; DOM nodes are modelled by the state they carry
(the progress-fill width, the feed entries, visibility flags). Each
definition mirrors one source function and is annotated with its origin.
-/

namespace Neu3

/-! ## JavaScript primitives -/

/-- Model of `Math.round` on an exact rational: round half toward +infinity,
as JavaScript does. -/
def jsRound (q : ℚ) : Int := ⌊q + 1/2⌋

/-- Model of `String.prototype.includes`: substring containment. -/
def strIncludes (s sub : String) : Bool := decide (sub.toList <:+: s.toList)

/-- Model of `String.prototype.replace` with a string pattern: replaces only
the first occurrence of `pat`. -/
def jsReplaceFirst (s pat rep : String) : String :=
  match s.splitOn pat with
  | [] => s
  | [_] => s
  | a :: rest => a ++ rep ++ String.intercalate pat rest

/-- Model of the JavaScript expression `o || dflt` for an optional string:
`null`/`undefined` and the empty string are falsy. -/
def jsOrStr (o : Option String) (dflt : String) : String :=
  match o with
  | none => dflt
  | some s => if s = "" then dflt else s

/-- Model of `o || 0` for an optional numeric field (0 is falsy, so the
result is the value when present and nonzero, else the default 0). -/
def jsOrZero (o : Option ℚ) : ℚ :=
  match o with
  | none => 0
  | some q => q

/-! ## Step catalog (`ANALYSIS_STEPS` in analysis.js) -/

/-- One entry of the static step catalog: display name, description text,
expected duration in seconds, expected cumulative progress threshold. -/
structure StepConfig where
  name : String
  descr : String
  duration : Nat
  progress : Nat
deriving DecidableEq, Repr

/-- The `ANALYSIS_STEPS` object of analysis.js, in declared insertion order
(the order `Object.entries` iterates). -/
def ANALYSIS_STEPS : List (String × StepConfig) :=
  [ ("market_research",
     ⟨"Market Research", "Comprehensive multi-source market intelligence gathering", 600, 10⟩),
    ("avatar_analysis",
     ⟨"Avatar Psychology Analysis", "Deep psychological profiling of target audience", 480, 25⟩),
    ("mental_drivers",
     ⟨"Mental Drivers Framework", "Custom psychological triggers and anchoring mechanisms", 420, 40⟩),
    ("objection_analysis",
     ⟨"Objection Analysis", "Anti-objection engineering and counter-strategy development", 360, 55⟩),
    ("provi_system",
     ⟨"Visual Proof System (PROVIs)", "Physical demonstration system for abstract concepts", 480, 70⟩),
    ("prepitch_architecture",
     ⟨"Pre-Pitch Architecture", "Invisible persuasion sequence and psychological preparation", 360, 85⟩),
    ("report_generation",
     ⟨"Report Generation", "Comprehensive analysis compilation and formatting", 300, 95⟩),
    ("pdf_generation",
     ⟨"PDF Generation", "Professional document creation and formatting", 120, 100⟩) ]

/-- `getCurrentStepKey(message)` of analysis.js: `null` and the empty string
yield `null`; otherwise the first catalog entry (in insertion order) whose
underscore-to-space key or lower-cased display name occurs in the
lower-cased message wins. -/
def getCurrentStepKey (message : Option String) : Option String :=
  match message with
  | none => none
  | some m =>
    if m = "" then none
    else
      let lowerMessage := m.toLower
      match ANALYSIS_STEPS.find? (fun p =>
        strIncludes lowerMessage (jsReplaceFirst p.1 "_" " ") ||
        strIncludes lowerMessage p.2.name.toLower) with
      | some p => some p.1
      | none => none

/-! ## Live feed (`addFeedItem` in analysis.js) -/

/-- One rendered feed entry: the timestamp shown and the message line. -/
structure FeedItem where
  timestamp : Nat
  message : String
deriving DecidableEq, Repr

/-- `addFeedItem(message)` of analysis.js: append the new entry at the end;
then, if more than 50 entries are present, remove the first (oldest) one. -/
def addFeedItem (feed : List FeedItem) (item : FeedItem) : List FeedItem :=
  let f := feed ++ [item]
  if f.length > 50 then f.drop 1 else f

/-! ## Analysis page state (analysis.js) -/

/-- State carried by the analysis page DOM plus the module-level variables of
analysis.js. `progressWidth` is the numeric value of the progress-fill
width style; `progressText` the rounded percentage text; `pollingActive`
records whether the self-rescheduling poll loop has a next request
scheduled; `pushSubscribed` records whether a push-channel
`analysis_progress` subscription is delivering events for the job (set up
by `initializeWebSocket`, and touched by no function modelled here). -/
structure PageState where
  progressWidth : ℚ
  progressText : Int
  feed : List FeedItem
  startTime : Nat
  pollingActive : Bool
  pushSubscribed : Bool
  errorVisible : Bool
deriving DecidableEq, Repr

/-- `updateProgress(percentage, message, step)` of analysis.js: writes the
width and rounded percentage unconditionally, then appends a feed entry.
No comparison with the previously displayed value occurs anywhere in the
function, and no terminal flag is consulted. -/
def updateProgress (now : Nat) (s : PageState) (percentage : ℚ)
    (message : String) (_step : Option String) : PageState :=
  { s with
    progressWidth := percentage
    progressText := jsRound percentage
    feed := addFeedItem s.feed ⟨now, message⟩ }

/-- A progress event as delivered by either update source to
`updateProgress`. -/
structure UiEvent where
  percentage : ℚ
  message : String
  stepKey : Option String
deriving DecidableEq, Repr

/-- Applying a whole sequence of progress events through `updateProgress`,
in order (both channels funnel into the same function). -/
def applyEvents (s : PageState) (events : List UiEvent) : PageState :=
  events.foldl (fun st e => updateProgress st.startTime st e.percentage e.message e.stepKey) s

/-- Decoded JSON body of a `/api/analysis_status/` response. -/
structure StatusResponse where
  status : String
  progress : Option ℚ
  current_step : Option String
  error_message : Option String
  report_word_count : Option Nat
deriving DecidableEq, Repr

/-- `handleAnalysisComplete(data)` of analysis.js, restricted to the state
modelled here: the poll loop does not reschedule (the `completed` branch
returns before `setTimeout`), progress is driven to 100 through
`updateProgress`, and a completion line is appended to the feed. -/
def handleAnalysisComplete (now : Nat) (s : PageState) : PageState :=
  let s := { s with pollingActive := false }
  let s := updateProgress now s 100 "Analysis completed successfully!" none
  { s with
    feed := addFeedItem s.feed
      ⟨now, "Analysis completed successfully! Report is ready for viewing."⟩ }

/-- `showError(message)` of analysis.js: reveal the error section, stop the
poll loop (the `error` branch returns before `setTimeout`), append an
ERROR line to the feed. -/
def showError (now : Nat) (s : PageState) (message : String) : PageState :=
  { s with
    errorVisible := true
    pollingActive := false
    feed := addFeedItem s.feed ⟨now, "ERROR: " ++ message⟩ }

/-- `restartAnalysis()` of analysis.js: reset the progress fill and text to
0, replace the feed content with a single "Analysis restarted" entry, set
`startTime` to now, and call `startProgressPolling()` again. The function
performs no push-channel action: `pushSubscribed` and `errorVisible` are
left as they were. -/
def restartAnalysis (now : Nat) (s : PageState) : PageState :=
  { s with
    progressWidth := 0
    progressText := 0
    feed := [⟨now, "Analysis restarted"⟩]
    startTime := now
    pollingActive := true }

/-! ## Polling loop (`startProgressPolling` in analysis.js) -/

/-- Which handler one iteration of `poll` dispatches. -/
inductive PollAction where
  | complete (data : StatusResponse)
  | surfaceError (message : String)
  | progress (percentage : ℚ) (message : String) (stepKey : Option String)
  | noAction
deriving DecidableEq, Repr

/-- One iteration of the `poll` closure in `startProgressPolling`: the
dispatched action paired with whether `setTimeout(poll, pollInterval)` is
reached (`true`) or the iteration returns first (`false`). A failed fetch
(the `catch` branch) surfaces the fixed error text and does not
reschedule. A status other than the three recognised ones dispatches
nothing but still reschedules. -/
def pollStep (result : Except String StatusResponse) : PollAction × Bool :=
  match result with
  | .error _ => (.surfaceError "Failed to get analysis status", false)
  | .ok data =>
    if data.status = "completed" then (.complete data, false)
    else if data.status = "error" then
      (.surfaceError (jsOrStr data.error_message "Analysis failed"), false)
    else if data.status = "processing" then
      (.progress (jsOrZero data.progress) (jsOrStr data.current_step "Processing...")
        (getCurrentStepKey data.current_step), true)
    else (.noAction, true)

/-- Trace of dispatched actions when the poll loop consumes successive
responses: each iteration dispatches, and only a rescheduling iteration
consumes the next response. -/
def pollTrace : List (Except String StatusResponse) → List PollAction
  | [] => []
  | r :: rest => (pollStep r).1 :: (if (pollStep r).2 then pollTrace rest else [])

/-- Number of status requests the loop issues when the given responses would
be served in order. -/
def pollRequests : List (Except String StatusResponse) → Nat
  | [] => 0
  | r :: rest => 1 + (if (pollStep r).2 then pollRequests rest else 0)

/-! ## Time tracking (`startTimeTracking` in analysis.js) -/

/-- One tick of the 1-second interval in `startTimeTracking`: elapsed whole
seconds since the start timestamp, and the remaining-time estimate in
whole seconds when `0 < currentProgress < 100` (`parseFloat` of the width
with `|| 0` is the `currentProgress` argument). `totalEstimated` is
`(elapsed / currentProgress) * 100` and the displayed remaining value is
`Math.max(0, Math.floor(totalEstimated - elapsed))`. -/
def timeTrackingTick (nowMs startMs : Nat) (currentProgress : ℚ) : Nat × Option Int :=
  let elapsed : Nat := (nowMs - startMs) / 1000
  if 0 < currentProgress ∧ currentProgress < 100 then
    let totalEstimated : ℚ := ((elapsed : ℚ) / currentProgress) * 100
    (elapsed, some (max 0 ⌊totalEstimated - (elapsed : ℚ)⌋))
  else (elapsed, none)

/-- `formatTime(seconds)` of analysis.js: minutes and seconds of the MM:SS
display. -/
def formatTime (seconds : Nat) : Nat × Nat := (seconds / 60, seconds % 60)

/-! ## Handler registry (`on` / `off` / `triggerEvent` in websocket.js)

Handlers are identified by a `Nat` tag (JavaScript compares them by `===`
identity, which a decidable-equality tag models); the `eventHandlers` Map
is an association list keyed by event name. -/

/-- Association-list model of the `eventHandlers` Map: event name to the
array of registered handler tags. -/
abbrev Registry := List (String × List Nat)

/-- Handlers currently registered for an event (`Map.prototype.get`, with
`[]` for a missing key). -/
def handlersD (r : Registry) (event : String) : List Nat :=
  (((r.find? (fun p => p.1 == event)).map (fun p => p.2)).getD [])

/-- Replacing the array stored under a key (a `push`/`splice` on the array a
Map returns mutates the stored array; rebinding the key to the new list
models that). -/
def setEntry (r : Registry) (event : String) (l : List Nat) : Registry :=
  r.map (fun p => if p.1 == event then (p.1, l) else p)

/-- `on(event, handler)` of websocket.js: create an empty array for a fresh
event name, then push the handler at the end. -/
def «on» (r : Registry) (event : String) (handler : Nat) : Registry :=
  match r.find? (fun p => p.1 == event) with
  | none => r ++ [(event, [handler])]
  | some p => setEntry r event (p.2 ++ [handler])

/-- Model of `Array.prototype.indexOf`: index of the first occurrence, or
`none` where JavaScript returns -1. -/
def jsIndexOf (l : List Nat) (handler : Nat) : Option Nat :=
  match l with
  | [] => none
  | a :: rest => if a = handler then some 0 else (jsIndexOf rest handler).map (· + 1)

/-- The body of `off` on the handler array: `indexOf` then, when the index
is greater than -1, `splice(index, 1)`. -/
def offList (l : List Nat) (handler : Nat) : List Nat :=
  match jsIndexOf l handler with
  | some index => l.take index ++ l.drop (index + 1)
  | none => l

/-- `off(event, handler)` of websocket.js: no change for an unknown event
name, else remove via `indexOf`/`splice` on the stored array. -/
def off (r : Registry) (event : String) (handler : Nat) : Registry :=
  match r.find? (fun p => p.1 == event) with
  | none => r
  | some p => setEntry r event (offList p.2 handler)

/-- `triggerEvent(event, data)` of websocket.js: `forEach` over the
registered handlers, each invocation wrapped in `try`/`catch` with the
failure logged. `throws h = true` models a handler whose invocation
raises. The first component collects every handler actually invoked, in
iteration order; the second collects the logged failures. -/
def triggerEvent (r : Registry) (event : String) (throws : Nat → Bool) :
    List Nat × List Nat :=
  match r.find? (fun p => p.1 == event) with
  | none => ([], [])
  | some p =>
    p.2.foldl
      (fun acc h => (acc.1 ++ [h], if throws h then acc.2 ++ [h] else acc.2))
      ([], [])

/-! ## Connection manager state (`WebSocketManager` in websocket.js) -/

/-- State of a `WebSocketManager` instance, together with the trace of
control messages emitted to the server (`socket.emit`) and of connection
status texts surfaced through `showConnectionStatus`. `hasSocket` models
`this.socket !== null`. -/
structure WSManager where
  hasSocket : Bool
  reconnectAttempts : Nat
  maxReconnectAttempts : Nat
  isConnected : Bool
  eventHandlers : Registry
  analysisRooms : List String
  sentMessages : List (String × String)
  statusNotes : List String
deriving DecidableEq, Repr

/-- The constructor of `WebSocketManager`: null socket, zero attempts, a
maximum of 5 reconnect attempts, disconnected, empty registry and room
set. -/
def mkWSManager : WSManager :=
  { hasSocket := false
    reconnectAttempts := 0
    maxReconnectAttempts := 5
    isConnected := false
    eventHandlers := []
    analysisRooms := []
    sentMessages := []
    statusNotes := [] }

/-- Adding to the `analysisRooms` Set: a member is not added twice,
insertion order is kept otherwise. -/
def setAdd (l : List String) (a : String) : List String :=
  if a ∈ l then l else l ++ [a]

/-- `joinAnalysis(analysisId)` of websocket.js: with a null socket or while
disconnected, log a warning and return `false` without sending anything
and without touching `analysisRooms`; otherwise emit `join_analysis`, add
the id to the room set, and return `true`. -/
def joinAnalysis (m : WSManager) (analysisId : String) : WSManager × Bool :=
  if !m.hasSocket || !m.isConnected then (m, false)
  else
    ({ m with
        sentMessages := m.sentMessages ++ [("join_analysis", analysisId)]
        analysisRooms := setAdd m.analysisRooms analysisId }, true)

/-- `leaveAnalysis(analysisId)` of websocket.js: returns `false` without any
change when the socket is null; otherwise emits `leave_analysis` and
removes the id from the room set (even while disconnected). -/
def leaveAnalysis (m : WSManager) (analysisId : String) : WSManager × Bool :=
  if !m.hasSocket then (m, false)
  else
    ({ m with
        sentMessages := m.sentMessages ++ [("leave_analysis", analysisId)]
        analysisRooms := m.analysisRooms.filter (fun a => a ≠ analysisId) }, true)

/-- `rejoinAnalysisRooms()` of websocket.js: emit `join_analysis` for every
retained room, in set-iteration (insertion) order. -/
def rejoinAnalysisRooms (m : WSManager) : WSManager :=
  { m with
    sentMessages :=
      m.sentMessages ++ m.analysisRooms.map (fun analysisId => ("join_analysis", analysisId)) }

/-- `disconnect()` of websocket.js: with a live socket, disconnect it, null
the reference, mark disconnected, and clear the whole room set; with a
null socket the method does nothing. -/
def disconnect (m : WSManager) : WSManager :=
  if m.hasSocket then
    { m with hasSocket := false, isConnected := false, analysisRooms := [] }
  else m

/-- The `reconnect_error` handler installed by `setupEventHandlers`:
increment `reconnectAttempts` and, whenever the incremented count has
reached `maxReconnectAttempts`, surface the "Failed to reconnect" status
text. -/
def onReconnectError (m : WSManager) : WSManager :=
  let m := { m with reconnectAttempts := m.reconnectAttempts + 1 }
  if m.maxReconnectAttempts ≤ m.reconnectAttempts then
    { m with statusNotes := m.statusNotes ++ ["Failed to reconnect"] }
  else m

/-- A run of `n` consecutive low-level `reconnect_error` events delivered to
the handler. -/
def applyReconnectErrors : Nat → WSManager → WSManager
  | 0, m => m
  | n + 1, m => applyReconnectErrors n (onReconnectError m)

/-- The `connect` handler installed by `setupEventHandlers`: mark connected,
reset the retry counter, surface the connected status, and replay every
retained room subscription. -/
def onConnect (m : WSManager) : WSManager :=
  let m := { m with isConnected := true, reconnectAttempts := 0 }
  let m := { m with statusNotes := m.statusNotes ++ ["Connected to server"] }
  rejoinAnalysisRooms m

/-- Transport options passed to `io(...)` in `initialize()`: the reconnect
policy is delegated to the transport with these bounds. -/
structure SocketConfig where
  reconnection : Bool
  reconnectionAttempts : Nat
  reconnectionDelay : Nat
  reconnectionDelayMax : Nat
deriving DecidableEq, Repr

/-- The concrete options object built in `initialize()`. -/
def initializeConfig (m : WSManager) : SocketConfig :=
  { reconnection := true
    reconnectionAttempts := m.maxReconnectAttempts
    reconnectionDelay := 1000
    reconnectionDelayMax := 5000 }

/-! ## Helper lemmas -/

/-- The `indexOf`/`splice` body of `off` removes exactly the earliest
occurrence: it agrees with `List.erase`. -/
theorem offList_erase (l : List Nat) (handler : Nat) :
    offList l handler = l.erase handler := by
  induction l with
  | nil => rfl
  | cons a l ih =>
    by_cases hah : a = handler
    · subst hah
      simp [offList, jsIndexOf]
    · have hidx : jsIndexOf (a :: l) handler = (jsIndexOf l handler).map (· + 1) := by
        simp [jsIndexOf, hah]
      rw [List.erase_cons_tail (by simpa using hah), ← ih]
      cases hj : jsIndexOf l handler with
      | none => simp [offList, hidx, hj]
      | some i => simp [offList, hidx, hj, List.take_succ_cons, List.drop_succ_cons]

/-- Erasing one copy of the element just appended is a permutation of the
original list. -/
theorem erase_append_singleton_perm (l : List Nat) (h : Nat) :
    ((l ++ [h]).erase h).Perm l := by
  have hm : h ∈ l ++ [h] := by simp
  have h1 := List.perm_cons_erase hm
  have h2 : (l ++ [h]).Perm (h :: l) := List.perm_append_comm
  exact (List.perm_cons h).mp (h1.symm.trans h2)

/-- Rewriting the stored handler array of an event that is present in the
registry. -/
theorem handlersD_setEntry (r : Registry) (event : String) (l : List Nat)
    (h : (r.find? (fun p => p.1 == event)).isSome = true) :
    handlersD (setEntry r event l) event = l := by
  induction r with
  | nil => simp [List.find?] at h
  | cons p r ih =>
    by_cases hpe : (p.1 == event) = true
    · have hmap : setEntry (p :: r) event l = (p.1, l) :: setEntry r event l := by
        simp only [setEntry, List.map_cons]
        rw [if_pos hpe]
      rw [hmap]
      unfold handlersD
      rw [List.find?_cons]
      simp [hpe]
    · have hpe' : (p.1 == event) = false := by simpa using hpe
      have hmap : setEntry (p :: r) event l = p :: setEntry r event l := by
        simp only [setEntry, List.map_cons]
        rw [if_neg (by simp [hpe'])]
      rw [hmap]
      have hrec : handlersD (p :: setEntry r event l) event =
          handlersD (setEntry r event l) event := by
        unfold handlersD
        rw [List.find?_cons]
        simp [hpe']
      rw [hrec]
      apply ih
      simp only [List.find?_cons, hpe'] at h
      exact h

/-- When no entry matches the predicate in the front list, `find?` over an
append continues in the back list. -/
theorem find?_append_of_none {α : Type} (l₁ l₂ : List α) (p : α → Bool)
    (h : l₁.find? p = none) : (l₁ ++ l₂).find? p = l₂.find? p := by
  induction l₁ with
  | nil => rfl
  | cons a l ih =>
    simp only [List.find?_cons] at h
    simp only [List.cons_append, List.find?_cons]
    cases hpa : p a with
    | false =>
      simp only [hpa] at h ⊢
      exact ih h
    | true => simp [hpa] at h

/-- `on` appends the new handler at the end of the array registered for the
event: handlers are kept in registration order. -/
theorem handlersD_on (r : Registry) (event : String) (handler : Nat) :
    handlersD («on» r event handler) event = handlersD r event ++ [handler] := by
  cases hf : r.find? (fun p => p.1 == event) with
  | none =>
    have h1 : «on» r event handler = r ++ [(event, [handler])] := by
      unfold «on»; rw [hf]
    rw [h1]
    unfold handlersD
    rw [find?_append_of_none r _ _ hf, hf]
    simp [List.find?_cons]
  | some p =>
    have h1 : «on» r event handler = setEntry r event (p.2 ++ [handler]) := by
      unfold «on»; rw [hf]
    rw [h1, handlersD_setEntry r event _ (by rw [hf]; rfl)]
    unfold handlersD
    rw [hf]
    rfl

/-- `off` erases the earliest-registered occurrence of the handler (or
nothing) from the array registered for the event. -/
theorem handlersD_off (r : Registry) (event : String) (handler : Nat) :
    handlersD (off r event handler) event = (handlersD r event).erase handler := by
  cases hf : r.find? (fun p => p.1 == event) with
  | none =>
    have h1 : off r event handler = r := by
      unfold off; rw [hf]
    rw [h1]
    unfold handlersD
    rw [hf]
    rfl
  | some p =>
    have h1 : off r event handler = setEntry r event (offList p.2 handler) := by
      unfold off; rw [hf]
    rw [h1, handlersD_setEntry r event _ (by rw [hf]; rfl), offList_erase]
    unfold handlersD
    rw [hf]
    rfl

/-- The `forEach` body of `triggerEvent`, run over any handler array from
any accumulator: it visits every handler in order and logs exactly the
throwing ones. -/
theorem triggerEvent_foldl (l : List Nat) (throws : Nat → Bool)
    (acc : List Nat × List Nat) :
    l.foldl (fun acc h => (acc.1 ++ [h], if throws h then acc.2 ++ [h] else acc.2)) acc =
      (acc.1 ++ l, acc.2 ++ l.filter throws) := by
  induction l generalizing acc with
  | nil => simp
  | cons a l ih =>
    rw [List.foldl_cons, ih]
    cases hta : throws a with
    | false => simp [List.filter_cons, hta]
    | true => simp [List.filter_cons, hta]

/-- Unfolding of `addFeedItem` with its local binding inlined. -/
theorem addFeedItem_eq (feed : List FeedItem) (item : FeedItem) :
    addFeedItem feed item =
      if (feed ++ [item]).length > 50 then (feed ++ [item]).drop 1
      else feed ++ [item] := rfl

/-- Appending one entry to a feed of at most 50 entries keeps it at
most 50. -/
theorem addFeedItem_length_le (feed : List FeedItem) (item : FeedItem)
    (h : feed.length ≤ 50) : (addFeedItem feed item).length ≤ 50 := by
  rw [addFeedItem_eq]
  split
  · simp only [List.length_drop, List.length_append, List.length_cons, List.length_nil]
    omega
  · rename_i hle
    simp only [gt_iff_lt, not_lt, List.length_append, List.length_cons,
      List.length_nil] at hle
    simp only [List.length_append, List.length_cons, List.length_nil]
    omega

/-- Appending to a full feed of exactly 50 entries evicts the oldest entry
first. -/
theorem addFeedItem_full (feed : List FeedItem) (item : FeedItem)
    (h : feed.length = 50) : addFeedItem feed item = feed.drop 1 ++ [item] := by
  rw [addFeedItem_eq,
    if_pos (by simp only [List.length_append, List.length_cons, List.length_nil]; omega),
    List.drop_append_of_le_length (by omega)]

/-- Folding any stream of entries through `addFeedItem` from the empty feed
retains exactly the most recent 50 of them. -/
theorem addFeedItem_foldl_drop (items : List FeedItem) :
    items.foldl addFeedItem [] = items.drop (items.length - 50) := by
  induction items using List.reverseRecOn with
  | nil => rfl
  | append_singleton init item ih =>
    rw [List.foldl_append, List.foldl_cons, List.foldl_nil, ih]
    by_cases hL : init.length ≤ 49
    · have h0 : init.length - 50 = 0 := by omega
      have h1 : (init ++ [item]).length - 50 = 0 := by
        simp only [List.length_append, List.length_cons, List.length_nil]; omega
      rw [h0, h1, List.drop_zero, List.drop_zero, addFeedItem_eq,
        if_neg (by
          simp only [gt_iff_lt, not_lt, List.length_append, List.length_cons,
            List.length_nil]
          omega)]
    · have h50 : 50 ≤ init.length := by omega
      rw [addFeedItem_eq,
        if_pos (by
          simp only [List.length_append, List.length_drop, List.length_cons,
            List.length_nil]
          omega),
        List.drop_append_of_le_length (by simp only [List.length_drop]; omega),
        List.drop_drop]
      have hlen : (init ++ [item]).length - 50 = (init.length - 50) + 1 := by
        simp only [List.length_append, List.length_cons, List.length_nil]; omega
      rw [hlen, List.drop_append_of_le_length (by omega)]

/-- Taking the positive part commutes with the floor on the display of the
remaining-time estimate. -/
theorem max_zero_floor (x : ℚ) : (max 0 ⌊x⌋ : ℤ) = ⌊max 0 x⌋ := by
  rcases le_total x 0 with h | h
  · have hfl : ⌊x⌋ ≤ 0 := by
      calc ⌊x⌋ ≤ ⌊(0 : ℚ)⌋ := Int.floor_le_floor h
      _ = 0 := Int.floor_zero
    rw [max_eq_left hfl, max_eq_left h, Int.floor_zero]
  · have hfl : 0 ≤ ⌊x⌋ := Int.floor_nonneg.mpr h
    rw [max_eq_right hfl, max_eq_right h]

/-! ## Claim C1 -/

/-- Claim C1 is false on the code: `updateProgress` contains no monotonicity
check and no terminal flag. Applying progress 10 and then progress 5
displays 5 (the lower event is applied, not discarded), and applying
progress 40 after `handleAnalysisComplete` has displayed 100 moves the
display to 40 (the display is mutable after a terminal event). -/
theorem updateProgress_lower_applied_counterexample :
    (updateProgress 1
      (updateProgress 0
        { progressWidth := 0, progressText := 0, feed := [], startTime := 0,
          pollingActive := true, pushSubscribed := true, errorVisible := false }
        10 "Market Research" none)
      5 "Avatar Psychology Analysis" none).progressWidth = 5 ∧
    (updateProgress 0
      { progressWidth := 0, progressText := 0, feed := [], startTime := 0,
        pollingActive := true, pushSubscribed := true, errorVisible := false }
      10 "Market Research" none).progressWidth = 10 ∧
    (updateProgress 3
      (handleAnalysisComplete 2
        (updateProgress 1
          (updateProgress 0
            { progressWidth := 0, progressText := 0, feed := [], startTime := 0,
              pollingActive := true, pushSubscribed := true, errorVisible := false }
            10 "Market Research" none)
          5 "Avatar Psychology Analysis" none))
      40 "late event" none).progressWidth = 40 ∧
    (handleAnalysisComplete 2
      (updateProgress 1
        (updateProgress 0
          { progressWidth := 0, progressText := 0, feed := [], startTime := 0,
            pollingActive := true, pushSubscribed := true, errorVisible := false }
          10 "Market Research" none)
        5 "Avatar Psychology Analysis" none)).progressWidth = 100 :=
  ⟨rfl, rfl, rfl, rfl⟩

/-- Claim C1 (amended): `updateProgress` applies every event unconditionally
and the displayed percentage after any event sequence is exactly the last
applied percentage — there is no monotonicity filter discarding
lower-percentage events and no terminal guard making the display
immutable. -/
theorem updateProgress_last_write_wins (s : PageState) (events : List UiEvent)
    (e : UiEvent) :
    (applyEvents s (events ++ [e])).progressWidth = e.percentage := by
  simp [applyEvents, List.foldl_append, updateProgress]

/-! ## Claim C2 -/

/-- Claim C2 is false on the code: calling `joinAnalysis` while disconnected
(socket present but `isConnected` false) performs no send, but it also
does not add the job identifier to the retained local subscription set —
the method returns `false` leaving the manager wholly unchanged, so
nothing is replayed for this identifier on the next connect. -/
theorem joinAnalysis_disconnected_counterexample :
    (joinAnalysis { mkWSManager with hasSocket := true } "job-1").1.analysisRooms = [] ∧
    (joinAnalysis { mkWSManager with hasSocket := true } "job-1").1.sentMessages = [] ∧
    (joinAnalysis { mkWSManager with hasSocket := true } "job-1").2 = false :=
  ⟨rfl, rfl, rfl⟩

/-- Claim C2 (amended): calling `joinAnalysis` while the connection manager
is disconnected performs no send and does not update the retained local
subscription set either — the call is a complete no-op returning `false`,
so the subscription is not replayed on the next successful connect unless
`joinAnalysis` is called again while connected. -/
theorem joinAnalysis_disconnected_noop (m : WSManager) (analysisId : String)
    (h : m.isConnected = false) :
    joinAnalysis m analysisId = (m, false) := by
  simp [joinAnalysis, h]

/-- Witness instantiating `joinAnalysis_disconnected_noop` at a concrete
disconnected manager. -/
theorem joinAnalysis_disconnected_noop_witness :
    ({ mkWSManager with hasSocket := true } : WSManager).isConnected = false ∧
    joinAnalysis { mkWSManager with hasSocket := true } "job-1" =
      ({ mkWSManager with hasSocket := true }, false) :=
  ⟨rfl, joinAnalysis_disconnected_noop { mkWSManager with hasSocket := true } "job-1" rfl⟩

/-! ## Claim C3 -/

/-- Claim C3 is false on the code: `restartAnalysis` re-arms only the polling
loop. It performs no push-channel action, so a job whose push-channel
subscription is not armed stays unarmed after restart; and the feed is not
left empty but replaced with a single "Analysis restarted" entry. -/
theorem restartAnalysis_counterexample :
    (restartAnalysis 100
      { progressWidth := 77, progressText := 77, feed := [⟨0, "step line"⟩],
        startTime := 0, pollingActive := false, pushSubscribed := false,
        errorVisible := true }).pushSubscribed = false ∧
    (restartAnalysis 100
      { progressWidth := 77, progressText := 77, feed := [⟨0, "step line"⟩],
        startTime := 0, pollingActive := false, pushSubscribed := false,
        errorVisible := true }).feed = [⟨100, "Analysis restarted"⟩] :=
  ⟨rfl, rfl⟩

/-- Claim C3 (amended): for every job state, `restartAnalysis` resets the
displayed progress and its text to 0, replaces the feed with the single
restart entry, resets the start timestamp to the current time, and
re-arms the polling loop; the push-channel subscription is not re-armed —
it is left in whatever state it already had. The code keeps no explicit
terminal flag; terminality is only the stopped poll loop, which restart
re-arms. -/
theorem restartAnalysis_resets (now : Nat) (s : PageState) :
    (restartAnalysis now s).progressWidth = 0 ∧
    (restartAnalysis now s).progressText = 0 ∧
    (restartAnalysis now s).feed = [⟨now, "Analysis restarted"⟩] ∧
    (restartAnalysis now s).startTime = now ∧
    (restartAnalysis now s).pollingActive = true ∧
    (restartAnalysis now s).pushSubscribed = s.pushSubscribed :=
  ⟨rfl, rfl, rfl, rfl, rfl, rfl⟩

/-! ## Claim C4 -/

/-- Claim C4: when a status response reports `completed` or `error`, the
poll iteration dispatches the corresponding terminal handling
(`handleAnalysisComplete` respectively the error surface) and does not
reach the rescheduling step: exactly one request is issued for the job
and the trace consists of the single terminal dispatch, whatever
responses would have followed. -/
theorem poll_terminal_stops (data : StatusResponse)
    (rest : List (Except String StatusResponse))
    (h : data.status = "completed" ∨ data.status = "error") :
    (pollStep (Except.ok data)).2 = false ∧
    pollRequests (Except.ok data :: rest) = 1 ∧
    pollTrace (Except.ok data :: rest) = [(pollStep (Except.ok data)).1] ∧
    (data.status = "completed" →
      (pollStep (Except.ok data)).1 = PollAction.complete data) ∧
    (data.status = "error" →
      (pollStep (Except.ok data)).1 =
        PollAction.surfaceError (jsOrStr data.error_message "Analysis failed")) := by
  have h2 : (pollStep (Except.ok data)).2 = false := by
    rcases h with h | h <;> simp [pollStep, h]
  refine ⟨h2, ?_, ?_, ?_, ?_⟩
  · simp [pollRequests, h2]
  · simp [pollTrace, h2]
  · intro hc
    simp [pollStep, hc]
  · intro he
    simp [pollStep, he]

/-- Witness instantiating `poll_terminal_stops` at the specified scenario:
first response `completed` with a 12345-word report, with one further
response available that is never requested. -/
theorem poll_terminal_stops_witness :
    (({ status := "completed", progress := none, current_step := none,
            error_message := none, report_word_count := some 12345 } : StatusResponse).status
        = "completed" ∨
      ({ status := "completed", progress := none, current_step := none,
            error_message := none, report_word_count := some 12345 } : StatusResponse).status
        = "error") ∧
    pollRequests
      [Except.ok { status := "completed", progress := none, current_step := none,
                   error_message := none, report_word_count := some 12345 },
       Except.ok { status := "processing", progress := some 50, current_step := none,
                   error_message := none, report_word_count := none }] = 1 :=
  ⟨Or.inl rfl,
    (poll_terminal_stops
      { status := "completed", progress := none, current_step := none,
        error_message := none, report_word_count := some 12345 }
      [Except.ok { status := "processing", progress := some 50, current_step := none,
                   error_message := none, report_word_count := none }]
      (Or.inl rfl)).2.1⟩

/-! ## Claim C5 -/

/-- Claim C5 is false on the code: the `reconnect_error` handler surfaces the
"Failed to reconnect" notification on every event at which the attempt
counter has reached the maximum, so six low-level reconnect-error events
surface the notification twice, not at most once. -/
theorem reconnect_notification_counterexample :
    (applyReconnectErrors 6 mkWSManager).statusNotes =
      ["Failed to reconnect", "Failed to reconnect"] := by
  rfl

/-- Claim C5 (amended): the "failed to reconnect" notification is surfaced
exactly once provided at most `maxReconnectAttempts` (5) reconnect-error
events occur — the bound the transport configuration
(`reconnectionAttempts`) enforces — namely on the 5th event and not
before; the handler itself re-surfaces it on each further event, so the
"never more than once" guarantee is conditional on that configured cap,
not unconditional. -/
theorem reconnect_notification_bounded (n : Nat) (h : n ≤ 5) :
    ((applyReconnectErrors n mkWSManager).statusNotes =
      if n = 5 then ["Failed to reconnect"] else []) ∧
    mkWSManager.maxReconnectAttempts = 5 ∧
    (initializeConfig mkWSManager).reconnectionAttempts = 5 := by
  refine ⟨?_, rfl, rfl⟩
  interval_cases n <;> rfl

/-- Witness instantiating `reconnect_notification_bounded` at the full run of
5 reconnect-error events. -/
theorem reconnect_notification_bounded_witness :
    (5 : Nat) ≤ 5 ∧
    (applyReconnectErrors 5 mkWSManager).statusNotes =
      if 5 = 5 then ["Failed to reconnect"] else [] :=
  ⟨le_refl 5, (reconnect_notification_bounded 5 (le_refl 5)).1⟩

/-! ## Claim C6 -/

/-- Claim C6: the live feed retains at most 50 entries — appending one entry
to a feed that already holds 50 evicts the oldest entry first, appending
to a feed of at most 50 entries leaves at most 50, and folding any stream
of entries through `addFeedItem` from the empty feed retains exactly the
most recent 50 of the stream. -/
theorem addFeedItem_bounded_recent :
    (∀ (feed : List FeedItem) (item : FeedItem), feed.length = 50 →
      addFeedItem feed item = feed.drop 1 ++ [item]) ∧
    (∀ (feed : List FeedItem) (item : FeedItem), feed.length ≤ 50 →
      (addFeedItem feed item).length ≤ 50) ∧
    (∀ items : List FeedItem,
      items.foldl addFeedItem [] = items.drop (items.length - 50)) :=
  ⟨addFeedItem_full, addFeedItem_length_le, addFeedItem_foldl_drop⟩

/-- Witness instantiating `addFeedItem_bounded_recent` at a concrete full
feed of 50 entries. -/
theorem addFeedItem_bounded_recent_witness :
    (List.replicate 50 (⟨0, "m"⟩ : FeedItem)).length = 50 ∧
    addFeedItem (List.replicate 50 (⟨0, "m"⟩ : FeedItem)) ⟨1, "n"⟩ =
      (List.replicate 50 (⟨0, "m"⟩ : FeedItem)).drop 1 ++ [⟨1, "n"⟩] :=
  ⟨List.length_replicate 50 _,
    addFeedItem_bounded_recent.1 _ _ (List.length_replicate 50 _)⟩

/-! ## Claim C7 -/

/-- Unfolding of `timeTrackingTick` with its local bindings inlined. -/
theorem timeTrackingTick_eq (nowMs startMs : Nat) (p : ℚ) :
    timeTrackingTick nowMs startMs p =
      if 0 < p ∧ p < 100 then
        ((nowMs - startMs) / 1000,
          some (max 0 ⌊(((nowMs - startMs) / 1000 : Nat) : ℚ) / p * 100
            - (((nowMs - startMs) / 1000 : Nat) : ℚ)⌋))
      else ((nowMs - startMs) / 1000, none) := rfl

/-- Claim C7: on each tick, the elapsed display is the whole seconds of now
minus the start timestamp; when the current progress p lies strictly
between 0 and 100 the displayed remaining time is
max(0, elapsed / (p / 100) - elapsed) truncated to whole seconds for the
MM:SS display; at p = 0 (and for any p outside (0, 100)) no
remaining-time estimate is produced. -/
theorem timeTrackingTick_estimate (nowMs startMs : Nat) (p : ℚ) :
    (timeTrackingTick nowMs startMs p).1 = (nowMs - startMs) / 1000 ∧
    (p = 0 → (timeTrackingTick nowMs startMs p).2 = none) ∧
    (0 < p → p < 100 →
      (timeTrackingTick nowMs startMs p).2 =
        some ⌊max 0 ((((nowMs - startMs) / 1000 : Nat) : ℚ) / (p / 100)
          - (((nowMs - startMs) / 1000 : Nat) : ℚ))⌋) := by
  refine ⟨?_, ?_, ?_⟩
  · rw [timeTrackingTick_eq]
    split <;> rfl
  · intro h0
    rw [timeTrackingTick_eq, if_neg (by simp [h0])]
  · intro h1 h2
    have hdiv : (((nowMs - startMs) / 1000 : Nat) : ℚ) / (p / 100)
          - (((nowMs - startMs) / 1000 : Nat) : ℚ)
        = (((nowMs - startMs) / 1000 : Nat) : ℚ) / p * 100
          - (((nowMs - startMs) / 1000 : Nat) : ℚ) := by
      rw [div_div_eq_mul_div, div_mul_eq_mul_div]
    rw [timeTrackingTick_eq, if_pos ⟨h1, h2⟩, hdiv, ← max_zero_floor]

/-- Witness instantiating `timeTrackingTick_estimate` at 5 elapsed seconds
and 25 percent progress. -/
theorem timeTrackingTick_estimate_witness :
    (0 : ℚ) < 25 ∧ (25 : ℚ) < 100 ∧
    (timeTrackingTick 5000 0 25).2 =
      some ⌊max 0 ((((5000 - 0) / 1000 : Nat) : ℚ) / ((25 : ℚ) / 100)
        - (((5000 - 0) / 1000 : Nat) : ℚ))⌋ :=
  ⟨by norm_num, by norm_num,
    (timeTrackingTick_estimate 5000 0 25).2.2 (by norm_num) (by norm_num)⟩

/-! ## Claim C8 -/

/-- Claim C8: triggering an event invokes every registered handler in
registration order — registration (`on`) appends at the end of the
per-event array, and the invocation trace always equals the whole
registered array whatever subset of handlers throws; the thrown failures
are exactly the logged ones, and they never prevent the remaining
handlers from being invoked. -/
theorem triggerEvent_all_handlers :
    (∀ (r : Registry) (event : String) (throws : Nat → Bool),
      (triggerEvent r event throws).1 = handlersD r event ∧
      (triggerEvent r event throws).2 = (handlersD r event).filter throws) ∧
    (∀ (r : Registry) (event : String) (handler : Nat),
      handlersD («on» r event handler) event = handlersD r event ++ [handler]) := by
  refine ⟨?_, handlersD_on⟩
  intro r event throws
  cases hf : r.find? (fun p => p.1 == event) with
  | none =>
    have h1 : triggerEvent r event throws = ([], []) := by
      unfold triggerEvent; rw [hf]
    have h2 : handlersD r event = [] := by
      unfold handlersD; rw [hf]; rfl
    rw [h1, h2]
    exact ⟨rfl, rfl⟩
  | some p =>
    have h1 : triggerEvent r event throws =
        (([] : List Nat) ++ p.2, ([] : List Nat) ++ p.2.filter throws) := by
      unfold triggerEvent
      rw [hf]
      exact triggerEvent_foldl p.2 throws ([], [])
    have h2 : handlersD r event = p.2 := by
      unfold handlersD; rw [hf]; rfl
    rw [h1, h2]
    constructor <;> simp

/-! ## Claim C9 -/

/-- Claim C9: the manual `disconnect` clears the entire retained
room-subscription set (besides nulling the socket and marking
disconnected), so the automatic resubscription that runs on a later
connect (`rejoinAnalysisRooms`) sends no join message for any previously
joined room. -/
theorem disconnect_clears_rooms (m : WSManager) (h : m.hasSocket = true) :
    (disconnect m).analysisRooms = [] ∧
    (disconnect m).hasSocket = false ∧
    (disconnect m).isConnected = false ∧
    (rejoinAnalysisRooms (disconnect m)).sentMessages = (disconnect m).sentMessages := by
  have hd : disconnect m =
      { m with hasSocket := false, isConnected := false, analysisRooms := [] } := by
    unfold disconnect; rw [if_pos h]
  rw [hd]
  refine ⟨rfl, rfl, rfl, ?_⟩
  simp [rejoinAnalysisRooms]

/-- Witness instantiating `disconnect_clears_rooms` at a connected manager
retaining two rooms. -/
theorem disconnect_clears_rooms_witness :
    ({ mkWSManager with
        hasSocket := true, isConnected := true,
        analysisRooms := ["job-1", "job-2"] } : WSManager).hasSocket = true ∧
    (disconnect { mkWSManager with
        hasSocket := true, isConnected := true,
        analysisRooms := ["job-1", "job-2"] }).analysisRooms = [] :=
  ⟨rfl, (disconnect_clears_rooms _ rfl).1⟩

/-! ## Claim C10 -/

/-- Claim C10: `off` removes at most one registration — the
earliest-registered occurrence of the handler (its `indexOf`/`splice`
body agrees with `List.erase`) — and for every registry state, `on`
followed by `off` with the same event and handler leaves the multiset of
handlers registered for that event unchanged. -/
theorem off_on_multiset_id :
    (∀ (l : List Nat) (handler : Nat), offList l handler = l.erase handler) ∧
    (∀ (r : Registry) (event : String) (handler : Nat),
      (handlersD (off («on» r event handler) event handler) event : Multiset Nat)
        = (handlersD r event : Multiset Nat)) := by
  refine ⟨offList_erase, ?_⟩
  intro r event handler
  rw [handlersD_off, handlersD_on]
  exact Multiset.coe_eq_coe.mpr (erase_append_singleton_perm _ _)

end Neu3
